import Mathlib

/-!
Shallow embedding of the storefront bot's store layer (`storage.py`):
the catalog store, order store, feedback store, session store and
welcome-image store, together with their JSON-file persistence.

Python dictionaries are modelled as association lists with
insert-or-replace update (matching dict insertion-order semantics for
lookups), Python floats as exact rationals, timestamps as naturals, and
the two persisted JSON files as small inductive file states (missing /
empty / corrupt / well-formed content).  File writes take an explicit
outcome parameter covering success, failure before any byte is written,
and failure in the middle of writing.  The recursion in
`_load_services` is modelled with explicit fuel; exhausting the fuel
plays the role of Python's `RecursionError`, which the surrounding
`except Exception` handlers catch.
-/

set_option autoImplicit false

namespace Storefront

universe u

/-- Lookup in an association list, first binding wins (Python `dict.get`). -/
def alist_get {α : Type u} {κ : Type} [DecidableEq κ] : List (κ × α) → κ → Option α
  | [], _ => none
  | (k0, v0) :: t, k => if k0 = k then some v0 else alist_get t k

/-- Insert-or-replace in an association list (Python `d[k] = v`): an existing
key keeps its position, a new key is appended. -/
def alist_set {α : Type u} {κ : Type} [DecidableEq κ] : List (κ × α) → κ → α → List (κ × α)
  | [], k, v => [(k, v)]
  | (k0, v0) :: t, k, v => if k0 = k then (k0, v) :: t else (k0, v0) :: alist_set t k v

/-- Remove a key from an association list (Python `del d[k]` / `d.pop(k, None)`).
A dict holds at most one binding per key, so key removal drops every binding
of that key. -/
def alist_remove {α : Type u} {κ : Type} [DecidableEq κ] : List (κ × α) → κ → List (κ × α)
  | [], _ => []
  | (k0, v0) :: t, k => if k0 = k then alist_remove t k else (k0, v0) :: alist_remove t k

/-- Outcome of one attempt to write a persisted file. -/
inductive WriteOutcome where
  /-- The write completes. -/
  | ok
  /-- The write fails before any byte reaches the target file
  (e.g. the `open` itself raises). -/
  | failEarly
  /-- The write fails after the target of the `open(..., 'w')` call has been
  truncated and partially written (e.g. disk full mid-`json.dump`). -/
  | failMid
deriving DecidableEq, Repr

/-- State of `services.json` on disk. -/
inductive SvcFile where
  | missing
  | empty
  | corrupt
  | good (m : List (String × Rat))
deriving DecidableEq, Repr

/-- State of `welcome_image.json` on disk. -/
inductive WFile where
  | missing
  | corrupt
  | good (file_id : Option String)
deriving DecidableEq, Repr

/-- An order record.  Python order records are dicts whose key set varies:
`create_order` does not write the `payment_confirmation_time` key at all, and
later code inserts it.  A field value of `none` means the key is absent from
the dict; `some none` means the key is present with value `None`. -/
structure Order where
  user_id : Int
  service : String
  status : String
  payment_status : Option (Option String)
  payment_method : Option (Option String)
  payment_confirmation_time : Option (Option Nat)
  created_at : Nat
  last_updated : Option Nat
deriving DecidableEq, Repr

/-- A feedback entry. -/
structure Feedback where
  id : Nat
  user_id : Int
  text : String
  status : String
  created_at : Nat
deriving DecidableEq, Repr

/-- The full state of a `Storage` object plus the two files it persists to. -/
structure State where
  orders : List (String × Order)
  feedback : List Feedback
  user_sessions : List (Int × List (String × String))
  welcome_image_file_id : Option String
  services : List (String × Rat)
  svcFile : SvcFile
  welcomeFile : WFile
deriving DecidableEq, Repr

/-- The fixed default catalog written by `_initialize_storage`
(Python float literals rendered as exact decimals). -/
def default_services : List (String × Rat) :=
  [("Telegram Premium - 1 Month", 499/100),
   ("Telegram Premium - 3 Months", 1299/100),
   ("Telegram Premium - 6 Months", 2499/100),
   ("Telegram Premium - 1 Year", 4599/100),
   ("Telegram Stars", 999/100)]

/-- First half of `Storage._initialize_storage`: create `services.json` with
the default catalog, but only when `os.path.exists` reports it missing; an
empty or corrupt file exists, so it is left untouched. -/
def init_svc_file (s : State) : State :=
  if s.svcFile = SvcFile.missing then { s with svcFile := SvcFile.good default_services } else s

/-- Second half of `Storage._initialize_storage`: create `welcome_image.json`
with `{"file_id": null}` only when it is missing. -/
def init_welcome_file (s : State) : State :=
  if s.welcomeFile = WFile.missing then { s with welcomeFile := WFile.good none } else s

/-- Embeds `Storage._initialize_storage`: the two creation blocks in order. -/
def initialize_storage (s : State) : State :=
  init_welcome_file (init_svc_file s)

/-- Embeds `Storage._load_welcome_image`: read the file once; a parse error is caught
and leaves the in-memory value unchanged. -/
def load_welcome_image (s : State) : State :=
  match s.welcomeFile with
  | WFile.good v => { s with welcome_image_file_id := v }
  | _ => s

/-- Embeds `Storage._save_welcome_image`: a plain `open(file, 'w')` followed by
`json.dump` — no temp file, no atomic rename.  A failure after the `open` has
truncated the file leaves it corrupt; only a failure before the `open`
preserves the previous contents. -/
def save_welcome_image (s : State) (w : WriteOutcome) : Bool × State :=
  match w with
  | WriteOutcome.ok => (true, { s with welcomeFile := WFile.good s.welcome_image_file_id })
  | WriteOutcome.failEarly => (false, s)
  | WriteOutcome.failMid => (false, { s with welcomeFile := WFile.corrupt })

/-- Embeds `Storage._save_services`: write the whole mapping to `services.json.temp`
and `os.replace` it over the canonical file.  Any failure (early or mid-write,
which only damages the temp file that is then removed) leaves the canonical
file exactly as it was. -/
def save_services (s : State) (w : WriteOutcome) : Bool × State :=
  match w with
  | WriteOutcome.ok => (true, { s with svcFile := SvcFile.good s.services })
  | _ => (false, s)

/-- Embeds `Storage._load_services` with explicit recursion fuel.  Running out of
fuel models Python's `RecursionError`, reported as `Except.error`.  The
recursive calls made on the missing-file and empty-file paths sit inside the
`try`, so an error from them is caught by the generic handler, which sets the
in-memory catalog to `{}`; the recursive call made on the corrupt-file path
sits inside the `except json.JSONDecodeError` handler, so an error from it
propagates to the caller. -/
def load_services : Nat → State → Except Unit State
  | 0, _ => Except.error ()
  | fuel + 1, s =>
    match s.svcFile with
    | SvcFile.good m => Except.ok { s with services := m }
    | SvcFile.empty =>
      match load_services fuel (initialize_storage s) with
      | Except.ok s2 => Except.ok s2
      | Except.error _ => Except.ok { s with services := [] }
    | SvcFile.missing =>
      match load_services fuel (initialize_storage s) with
      | Except.ok s2 => Except.ok s2
      | Except.error _ => Except.ok { s with services := [] }
    | SvcFile.corrupt => load_services fuel (initialize_storage s)

/-- Embeds `Storage.get_services`: reload from disk, re-initialize once if the result
is empty, and reload again; every raised error is caught and turned into the
empty mapping. -/
def get_services (fuel : Nat) (s : State) : List (String × Rat) × State :=
  match load_services fuel s with
  | Except.error _ => ([], s)
  | Except.ok s1 =>
    if s1.services.isEmpty then
      match load_services fuel (initialize_storage s1) with
      | Except.error _ => ([], initialize_storage s1)
      | Except.ok s3 => (s3.services, s3)
    else (s1.services, s1)

/-- Embeds `Storage.get_service_price`: reload from disk (outside any `try`, so a
load error propagates), then look the name up. -/
def get_service_price (fuel : Nat) (s : State) (name : String) :
    Except Unit (Option Rat × State) :=
  match load_services fuel s with
  | Except.error e => Except.error e
  | Except.ok s1 => Except.ok (alist_get s1.services name, s1)

/-- Embeds `Storage.add_service`: reject an empty name, otherwise store the price
in memory and attempt the atomic save, returning its success flag. -/
def add_service (s : State) (name : String) (price : Rat) (w : WriteOutcome) :
    Bool × State :=
  if name = "" then (false, s)
  else
    let s1 := { s with services := alist_set s.services name price }
    save_services s1 w

/-- Embeds `Storage.remove_service`: delete the name if present and save; report
`False` for an absent name. -/
def remove_service (s : State) (name : String) (w : WriteOutcome) : Bool × State :=
  match alist_get s.services name with
  | some _ => save_services { s with services := alist_remove s.services name } w
  | none => (false, s)

/-- Embeds `Storage.set_welcome_image`: reject an empty reference, otherwise store it
and attempt the (non-atomic) save. -/
def set_welcome_image (s : State) (fid : String) (w : WriteOutcome) : Bool × State :=
  if fid = "" then (false, s)
  else save_welcome_image { s with welcome_image_file_id := some fid } w

/-- Embeds `Storage.get_welcome_image`: pure read of the in-memory value. -/
def get_welcome_image (s : State) : Option String :=
  s.welcome_image_file_id

/-- The order id `f"ORD_{datetime.now().strftime('%Y%m%d%H%M%S')}_{user_id}"`. -/
def order_id_gen (ts : Nat) (user_id : Int) : String :=
  "ORD_" ++ toString ts ++ "_" ++ toString user_id

/-- The fresh order record `create_order` inserts. -/
def pm_create (user_id : Int) (service : String) (ts : Nat) : Order :=
  { user_id := user_id, service := service, status := "pending",
    payment_status := some none, payment_method := some none,
    payment_confirmation_time := none, created_at := ts, last_updated := none }

/-- Embeds `Storage.create_order`: insert a fresh record with status `pending`,
`payment_status` and `payment_method` keys present with value `None`, and no
`payment_confirmation_time` key at all. -/
def create_order (s : State) (user_id : Int) (service : String) (ts : Nat) :
    String × State :=
  let oid := order_id_gen ts user_id
  (oid, { s with orders := alist_set s.orders oid (pm_create user_id service ts) })

/-- The in-place key back-fill `get_order` performs on the record it found:
a missing `payment_status` or `payment_confirmation_time` key is inserted
with value `None`. -/
def fill_payment_keys (o : Order) : Order :=
  let o1 := match o.payment_status with
    | none => { o with payment_status := some none }
    | some _ => o
  match o1.payment_confirmation_time with
  | none => { o1 with payment_confirmation_time := some none }
  | some _ => o1

/-- Embeds `Storage.get_order`: an unknown id yields the empty dict and touches
nothing; a known id yields the stored record after back-filling its missing
payment keys, and — because the dict is mutated through the shared
reference — the store keeps the back-filled record. -/
def get_order (s : State) (oid : String) : Option Order × State :=
  match alist_get s.orders oid with
  | none => (none, s)
  | some o =>
    let o2 := fill_payment_keys o
    (some o2, { s with orders := alist_set s.orders oid o2 })

/-- Embeds `Storage.update_order_status`. -/
def update_order_status (s : State) (oid status : String) : Bool × State :=
  match alist_get s.orders oid with
  | some o =>
    let o1 := { o with status := status }
    (true, { s with orders := alist_set s.orders oid o1 })
  | none => (false, s)

/-- The dict payload of the `update` call in `update_payment_method`. -/
def pm_update (o : Order) (method : String) (ts : Nat) : Order :=
  { o with payment_method := some (some method),
           payment_status := some (some "pending"),
           payment_confirmation_time := some none,
           last_updated := some ts }

/-- The dict payload of the `update` call in `update_payment_status`. -/
def ps_update (o : Order) (status : String) (ts : Nat) : Order :=
  { o with payment_status := some (some status),
           payment_confirmation_time :=
             some (if status = "confirmed" then some ts else none),
           last_updated := some ts }

/-- Embeds `Storage.update_payment_method`: set the method, reset `payment_status`
to `"pending"`, clear the confirmation time and stamp `last_updated`. -/
def update_payment_method (s : State) (oid method : String) (ts : Nat) : Bool × State :=
  match alist_get s.orders oid with
  | some o => (true, { s with orders := alist_set s.orders oid (pm_update o method ts) })
  | none => (false, s)

/-- Embeds `Storage.update_payment_status`: set the status, stamp the confirmation
time exactly when the status is `"confirmed"` (else store `None`). -/
def update_payment_status (s : State) (oid status : String) (ts : Nat) : Bool × State :=
  match alist_get s.orders oid with
  | some o => (true, { s with orders := alist_set s.orders oid (ps_update o status ts) })
  | none => (false, s)

/-- Embeds `Storage.get_user_orders`: pure filter. -/
def get_user_orders (s : State) (user_id : Int) : List (String × Order) :=
  s.orders.filter (fun p => p.2.user_id = user_id)

/-- Embeds `Storage.get_user_pending_orders`: pure filter. -/
def get_user_pending_orders (s : State) (user_id : Int) : List (String × Order) :=
  s.orders.filter (fun p => p.2.user_id = user_id ∧ p.2.status = "pending")

/-- Embeds `Storage.add_feedback`: the new id is the current length of the feedback
list; the entry is appended with status `pending`. -/
def add_feedback (s : State) (user_id : Int) (text : String) (ts : Nat) :
    Nat × State :=
  let fid := s.feedback.length
  (fid, { s with feedback := s.feedback ++
    [{ id := fid, user_id := user_id, text := text, status := "pending",
       created_at := ts }] })

/-- Embeds `Storage.get_pending_feedback`: pure filter. -/
def get_pending_feedback (s : State) : List Feedback :=
  s.feedback.filter (fun f => f.status = "pending")

/-- Embeds `Storage.update_feedback_status`: bounds-checked positional update of the
status field only. -/
def update_feedback_status (s : State) (fid : Int) (status : String) : Bool × State :=
  if h : 0 ≤ fid ∧ fid.toNat < s.feedback.length then
    let f1 := { s.feedback.get ⟨fid.toNat, h.2⟩ with status := status }
    (true, { s with feedback := s.feedback.set fid.toNat f1 })
  else (false, s)

/-- Embeds `Storage.set_user_session`: create the per-user map if absent, then set
the key. -/
def set_user_session (s : State) (user_id : Int) (key val : String) : State :=
  let m := (alist_get s.user_sessions user_id).getD []
  { s with user_sessions := alist_set s.user_sessions user_id (alist_set m key val) }

/-- Embeds `Storage.get_user_session`: `self.user_sessions.get(user_id, {}).get(key)`. -/
def get_user_session (s : State) (user_id : Int) (key : String) : Option String :=
  alist_get ((alist_get s.user_sessions user_id).getD []) key

/-- Embeds `Storage.clear_user_session`: drop the whole per-user map. -/
def clear_user_session (s : State) (user_id : Int) : State :=
  { s with user_sessions := alist_remove s.user_sessions user_id }

/-- Embeds `Storage.__init__` run against a given initial pair of files: empty
in-memory stores, then `_initialize_storage`, `_load_welcome_image` and
`_load_services` (whose error, if any, propagates out of the constructor). -/
def storage_init (f0 : SvcFile) (w0 : WFile) (fuel : Nat) : Except Unit State :=
  let s0 : State :=
    { orders := [], feedback := [], user_sessions := [],
      welcome_image_file_id := none, services := [], svcFile := f0, welcomeFile := w0 }
  load_services fuel (load_welcome_image (initialize_storage s0))

/-- One public `Storage` operation together with its inputs, the timestamps
the clock supplies, the write outcomes the filesystem supplies, and the
recursion fuel bounding `_load_services`. -/
inductive Op where
  | addService (name : String) (price : Rat) (w : WriteOutcome)
  | removeService (name : String) (w : WriteOutcome)
  | getServices (fuel : Nat)
  | getServicePrice (fuel : Nat) (name : String)
  | setWelcomeImage (fid : String) (w : WriteOutcome)
  | getWelcomeImage
  | createOrder (user_id : Int) (service : String) (ts : Nat)
  | getOrder (oid : String)
  | updateOrderStatus (oid status : String)
  | updatePaymentMethod (oid method : String) (ts : Nat)
  | updatePaymentStatus (oid status : String) (ts : Nat)
  | getUserOrders (user_id : Int)
  | getUserPendingOrders (user_id : Int)
  | addFeedback (user_id : Int) (text : String) (ts : Nat)
  | getPendingFeedback
  | updateFeedbackStatus (fid : Int) (status : String)
  | setUserSession (user_id : Int) (key val : String)
  | getUserSession (user_id : Int) (key : String)
  | clearUserSession (user_id : Int)

/-- The state after one operation (read-only operations leave it unchanged;
`get_service_price` keeps the pre-call state when its reload raises). -/
def step (s : State) : Op → State
  | Op.addService n p w => (add_service s n p w).2
  | Op.removeService n w => (remove_service s n w).2
  | Op.getServices fuel => (get_services fuel s).2
  | Op.getServicePrice fuel n =>
    match get_service_price fuel s n with
    | Except.ok (_, s1) => s1
    | Except.error _ => s
  | Op.setWelcomeImage fid w => (set_welcome_image s fid w).2
  | Op.getWelcomeImage => s
  | Op.createOrder uid svc ts => (create_order s uid svc ts).2
  | Op.getOrder oid => (get_order s oid).2
  | Op.updateOrderStatus oid st => (update_order_status s oid st).2
  | Op.updatePaymentMethod oid m ts => (update_payment_method s oid m ts).2
  | Op.updatePaymentStatus oid st ts => (update_payment_status s oid st ts).2
  | Op.getUserOrders _ => s
  | Op.getUserPendingOrders _ => s
  | Op.addFeedback uid t ts => (add_feedback s uid t ts).2
  | Op.getPendingFeedback => s
  | Op.updateFeedbackStatus fid st => (update_feedback_status s fid st).2
  | Op.setUserSession uid k v => set_user_session s uid k v
  | Op.getUserSession _ _ => s
  | Op.clearUserSession uid => clear_user_session s uid

/-- States reachable from a successful construction of the store (over any
initial files) by any sequence of operations. -/
inductive Reachable : State → Prop where
  | init : ∀ f0 w0 fuel s, storage_init f0 w0 fuel = Except.ok s → Reachable s
  | step : ∀ s op, Reachable s → Reachable (step s op)

/-- The positional-id property of the feedback list: every entry's stored id
equals its index. -/
def ids_positional (l : List Feedback) : Prop :=
  ∀ i (hi : i < l.length), (l.get ⟨i, hi⟩).id = i

/-- A store whose files hold an empty catalog and no welcome image, as left
by a successful construction over those files. -/
def emptyState : State :=
  { orders := [], feedback := [], user_sessions := [],
    welcome_image_file_id := none, services := [],
    svcFile := SvcFile.good [], welcomeFile := WFile.good none }

/-- A store observing a `services.json` that exists but is empty
(e.g. truncated externally). -/
def empty_services_file_state : State :=
  { orders := [], feedback := [], user_sessions := [],
    welcome_image_file_id := none, services := [],
    svcFile := SvcFile.empty, welcomeFile := WFile.good none }

/-- A store that has successfully persisted the welcome image `"old"`. -/
def welcome_prev_state : State :=
  { orders := [], feedback := [], user_sessions := [],
    welcome_image_file_id := some "old", services := [],
    svcFile := SvcFile.good [], welcomeFile := WFile.good (some "old") }

/-- The state produced by constructing the store over a fresh directory
(both files missing). -/
def fresh_init_state : State :=
  { orders := [], feedback := [], user_sessions := [],
    welcome_image_file_id := none, services := default_services,
    svcFile := SvcFile.good default_services, welcomeFile := WFile.good none }

/-- The state after adding a negatively-priced service to `emptyState`. -/
def negative_price_state : State :=
  (add_service emptyState "X" (-1) WriteOutcome.ok).2

/-- The freshly created order record of `one_order_state`. -/
def order_example : Order :=
  { user_id := 42, service := "Telegram Stars", status := "pending",
    payment_status := some none, payment_method := some none,
    payment_confirmation_time := none, created_at := 20250101, last_updated := none }

/-- A store holding exactly one freshly created order. -/
def one_order_state : State :=
  (create_order fresh_init_state 42 "Telegram Stars" 20250101).2

@[simp] theorem alist_get_set_self {α : Type u} {κ : Type} [DecidableEq κ]
    (l : List (κ × α)) (k : κ) (v : α) : alist_get (alist_set l k v) k = some v := by
  induction l with
  | nil => simp [alist_set, alist_get]
  | cons h t ih =>
    obtain ⟨k0, v0⟩ := h
    by_cases hk : k0 = k <;> simp [alist_set, alist_get, hk, ih]

@[simp] theorem alist_get_remove_self {α : Type u} {κ : Type} [DecidableEq κ]
    (l : List (κ × α)) (k : κ) : alist_get (alist_remove l k) k = none := by
  induction l with
  | nil => simp [alist_remove, alist_get]
  | cons h t ih =>
    obtain ⟨k0, v0⟩ := h
    by_cases hk : k0 = k <;> simp [alist_remove, alist_get, hk, ih]

/-- Claim C1: For every non-empty service name and every price ≥ 0, calling
`add_service (name, price)` and then `get_service_price name` returns exactly
that price, provided the persistence write succeeded. -/
theorem add_service_then_get_price (s : State) (name : String) (price : Rat)
    (fuel : Nat) (hname : name ≠ "") (hprice : 0 ≤ price) :
    (add_service s name price WriteOutcome.ok).1 = true ∧
    ∃ s1, get_service_price (fuel + 1) (add_service s name price WriteOutcome.ok).2 name =
      Except.ok (some price, s1) := by
  refine ⟨by simp [add_service, hname, save_services],
    ⟨(add_service s name price WriteOutcome.ok).2, ?_⟩⟩
  simp [add_service, hname, save_services, get_service_price, load_services]

/-- Witness for C1 at a concrete input. -/
theorem add_service_then_get_price_witness :
    (add_service emptyState "X" 5 WriteOutcome.ok).1 = true ∧
    ∃ s1, get_service_price 1 (add_service emptyState "X" 5 WriteOutcome.ok).2 "X" =
      Except.ok (some 5, s1) :=
  add_service_then_get_price emptyState "X" 5 0 (by decide) (by norm_num)

/-- On a `services.json` that exists but is empty, `_load_services` recurses
until the recursion budget is exhausted; the resulting error is caught by the
generic handler, which sets the in-memory catalog to `{}` and leaves the file
empty — the defaults are never written because `_initialize_storage` only
creates a file that does not exist. -/
theorem load_services_empty_file (n : Nat) :
    load_services (n + 1) empty_services_file_state =
      Except.ok empty_services_file_state := by
  induction n with
  | zero => rfl
  | succ m ih =>
    have hstep : load_services (m + 1 + 1) empty_services_file_state =
        (match load_services (m + 1) empty_services_file_state with
          | Except.ok s2 => Except.ok s2
          | Except.error _ =>
            Except.ok { empty_services_file_state with services := [] }) := rfl
    rw [hstep, ih]

/-- Claim C2: The claim says a read that finds `services.json` missing, empty or
corrupt recreates it from the default catalog and returns the defaults.  The
code contradicts its own comments (`# This will create default services`) for
the empty-file case: `_initialize_storage` refuses to touch an existing file,
so `get_services` returns the empty catalog and leaves the file empty, for
every recursion budget. -/
theorem get_services_empty_file_keeps_empty (fuel : Nat) :
    (get_services fuel empty_services_file_state).1 = [] ∧
    ((get_services fuel empty_services_file_state).2).svcFile = SvcFile.empty ∧
    (get_services fuel empty_services_file_state).1 ≠ default_services := by
  cases fuel with
  | zero => exact ⟨rfl, rfl, by decide⟩
  | succ n =>
    have h := load_services_empty_file n
    have hinit : initialize_storage empty_services_file_state =
        empty_services_file_state := rfl
    have hget : get_services (n + 1) empty_services_file_state =
        ([], empty_services_file_state) := by
      simp only [get_services, h, hinit]
      rfl
    rw [hget]
    exact ⟨rfl, rfl, by decide⟩

/-- Claim C3 counterexample: After the welcome image `"old"` has been persisted,
an interrupted `set_welcome_image "new"` leaves `welcome_image.json` corrupt —
not the previously persisted contents: `_save_welcome_image` opens the
canonical file with `'w'` (truncating it) instead of using the catalog's
temp-file-plus-rename discipline. -/
theorem set_welcome_image_interrupted_corrupts :
    (set_welcome_image welcome_prev_state "new" WriteOutcome.failMid).1 = false ∧
    ((set_welcome_image welcome_prev_state "new" WriteOutcome.failMid).2).welcomeFile
      = WFile.corrupt ∧
    ((set_welcome_image welcome_prev_state "new" WriteOutcome.failMid).2).welcomeFile
      ≠ welcome_prev_state.welcomeFile :=
  ⟨rfl, rfl, by decide⟩

/-- Claim C3 amended: The catalog saves really are atomic — any failed write
leaves `services.json` unchanged — but the welcome-image save is a direct
truncating write: a failure before the `open` preserves the file, while an
interrupted write leaves it corrupt instead of holding the previous value. -/
theorem welcome_image_save_not_atomic (s : State) (name fid : String) (price : Rat)
    (w : WriteOutcome) (hw : w ≠ WriteOutcome.ok) (hfid : fid ≠ "") :
    ((add_service s name price w).2).svcFile = s.svcFile ∧
    ((remove_service s name w).2).svcFile = s.svcFile ∧
    ((set_welcome_image s fid WriteOutcome.failEarly).2).welcomeFile = s.welcomeFile ∧
    ((set_welcome_image s fid WriteOutcome.failMid).2).welcomeFile = WFile.corrupt := by
  refine ⟨?_, ?_, ?_, ?_⟩
  · unfold add_service
    split
    · rfl
    · cases w with
      | ok => exact absurd rfl hw
      | failEarly => rfl
      | failMid => rfl
  · unfold remove_service
    cases alist_get s.services name with
    | none => rfl
    | some v =>
      cases w with
      | ok => exact absurd rfl hw
      | failEarly => rfl
      | failMid => rfl
  · simp [set_welcome_image, hfid, save_welcome_image]
  · simp [set_welcome_image, hfid, save_welcome_image]

/-- Witness for the amended C3 at a concrete input. -/
theorem welcome_image_save_not_atomic_witness :
    ((add_service welcome_prev_state "X" 1 WriteOutcome.failMid).2).svcFile
      = welcome_prev_state.svcFile ∧
    ((remove_service welcome_prev_state "X" WriteOutcome.failMid).2).svcFile
      = welcome_prev_state.svcFile ∧
    ((set_welcome_image welcome_prev_state "img" WriteOutcome.failEarly).2).welcomeFile
      = welcome_prev_state.welcomeFile ∧
    ((set_welcome_image welcome_prev_state "img" WriteOutcome.failMid).2).welcomeFile
      = WFile.corrupt :=
  welcome_image_save_not_atomic welcome_prev_state "X" "img" 1 WriteOutcome.failMid
    (by decide) (by decide)

/-- Claim C7 counterexample: A reachable state whose catalog holds a negative
price: `add_service` never checks the sign of the price, so the claimed
`price ≥ 0` catalog invariant fails. -/
theorem catalog_price_invariant_fails :
    Reachable negative_price_state ∧
    alist_get negative_price_state.services "X" = some (-1) ∧
    ¬ (0 : Rat) ≤ -1 :=
  ⟨Reachable.step emptyState (Op.addService "X" (-1) WriteOutcome.ok)
      (Reachable.init (SvcFile.good []) (WFile.good none) 1 emptyState rfl),
    rfl, by norm_num⟩

/-- Claim C7 amended: `add_service` validates only that the name is non-empty
(and, in Python, that the price is numeric): every rational price — negative
included — is accepted and stored verbatim, so `price ≥ 0` is not an invariant
of the catalog. -/
theorem add_service_no_price_validation (s : State) (name : String) (price : Rat)
    (hname : name ≠ "") :
    (add_service s name price WriteOutcome.ok).1 = true ∧
    alist_get ((add_service s name price WriteOutcome.ok).2).services name = some price := by
  constructor <;> simp [add_service, hname, save_services]

/-- Witness for the amended C7 at a negative price. -/
theorem add_service_no_price_validation_witness :
    (add_service emptyState "Y" (-3) WriteOutcome.ok).1 = true ∧
    alist_get ((add_service emptyState "Y" (-3) WriteOutcome.ok).2).services "Y"
      = some (-3) :=
  add_service_no_price_validation emptyState "Y" (-3) (by decide)

/-- Claim C8: Clearing a user's session removes the whole per-user map: any
subsequent `get_user_session` for that user, on any key, returns absent. -/
theorem clear_user_session_clears (s : State) (uid : Int) (key : String) :
    get_user_session (clear_user_session s uid) uid key = none := by
  simp [get_user_session, clear_user_session, alist_get]

/-- Claim C4: For every existing order id and payment-method string,
`update_payment_method` sets the method, resets `payment_status` to
`"pending"` and clears the confirmation time — whatever the previous payment
state was — and returns success; an unknown id yields `False` and leaves the
store untouched. -/
theorem update_payment_method_resets (s : State) (oid method : String) (ts : Nat) :
    (∀ o, alist_get s.orders oid = some o →
      (update_payment_method s oid method ts).1 = true ∧
      ∃ o1, alist_get ((update_payment_method s oid method ts).2).orders oid = some o1 ∧
        o1.payment_method = some (some method) ∧
        o1.payment_status = some (some "pending") ∧
        o1.payment_confirmation_time = some none) ∧
    (alist_get s.orders oid = none →
      update_payment_method s oid method ts = (false, s)) := by
  constructor
  · intro o ho
    refine ⟨by simp [update_payment_method, ho], ?_⟩
    refine ⟨pm_update o method ts, ?_, rfl, rfl, rfl⟩
    simp [update_payment_method, ho]
  · intro ho
    simp [update_payment_method, ho]

/-- Witness for C4 on a store holding one previously confirmed order. -/
theorem update_payment_method_resets_witness :
    (update_payment_method one_order_state "ORD_20250101_42" "CBE" 5).1 = true ∧
    ∃ o1, alist_get ((update_payment_method one_order_state "ORD_20250101_42" "CBE" 5).2).orders
        "ORD_20250101_42" = some o1 ∧
      o1.payment_method = some (some "CBE") ∧
      o1.payment_status = some (some "pending") ∧
      o1.payment_confirmation_time = some none :=
  (update_payment_method_resets one_order_state "ORD_20250101_42" "CBE" 5).1
    order_example rfl

/-- Claim C5: For every existing order id, `update_payment_status` stores a
non-null confirmation time exactly when the new status is `"confirmed"`, and
stores null for every other status value. -/
theorem update_payment_status_timestamp (s : State) (oid status : String) (ts : Nat)
    (o : Order) (ho : alist_get s.orders oid = some o) :
    (update_payment_status s oid status ts).1 = true ∧
    ∃ o1, alist_get ((update_payment_status s oid status ts).2).orders oid = some o1 ∧
      ((∃ t, o1.payment_confirmation_time = some (some t)) ↔ status = "confirmed") ∧
      (status ≠ "confirmed" → o1.payment_confirmation_time = some none) := by
  refine ⟨by simp [update_payment_status, ho], ?_⟩
  refine ⟨ps_update o status ts, ?_, ?_, ?_⟩
  · simp [update_payment_status, ho]
  · by_cases hc : status = "confirmed" <;> simp [ps_update, hc]
  · intro hc
    simp [ps_update, hc]

/-- Witness for C5: confirming the payment of a concrete order stamps a
non-null confirmation time. -/
theorem update_payment_status_timestamp_witness :
    (update_payment_status one_order_state "ORD_20250101_42" "confirmed" 9).1 = true ∧
    ∃ o1, alist_get ((update_payment_status one_order_state "ORD_20250101_42" "confirmed" 9).2).orders
        "ORD_20250101_42" = some o1 ∧
      ((∃ t, o1.payment_confirmation_time = some (some t)) ↔ ("confirmed" : String) = "confirmed") ∧
      (("confirmed" : String) ≠ "confirmed" → o1.payment_confirmation_time = some none) :=
  update_payment_status_timestamp one_order_state "ORD_20250101_42" "confirmed" 9
    order_example rfl

/-- Claim C6: `create_order` returns an id ending in the user id, and an
immediate `get_order` on that id yields a record with status `"pending"` and
all three payment fields null. -/
theorem create_order_then_get (s : State) (uid : Int) (svc : String) (ts : Nat) :
    (∃ pre, (create_order s uid svc ts).1 = pre ++ toString uid) ∧
    ∃ o, (get_order (create_order s uid svc ts).2 (create_order s uid svc ts).1).1 = some o ∧
      o.status = "pending" ∧ o.payment_method = some none ∧
      o.payment_status = some none ∧ o.payment_confirmation_time = some none := by
  constructor
  · exact ⟨"ORD_" ++ toString ts ++ "_", rfl⟩
  · refine ⟨fill_payment_keys (pm_create uid svc ts), ?_, rfl, rfl, rfl, rfl⟩
    simp [create_order, get_order]

/-- Claim C10: `get_order` is not a pure read: on an existing record it
back-fills the missing payment keys with null in the stored record itself
(and right after `create_order` the `payment_confirmation_time` key is indeed
missing, so the stored record really changes); only on an unknown id does it
return the empty record and leave the store unchanged. -/
theorem get_order_backfills_and_mutates (s : State) (oid : String) :
    (∀ o, alist_get s.orders oid = some o →
      (get_order s oid).1 = some (fill_payment_keys o) ∧
      (get_order s oid).2 =
        { s with orders := alist_set s.orders oid (fill_payment_keys o) } ∧
      (o.payment_confirmation_time = none →
        (fill_payment_keys o).payment_confirmation_time = some none ∧
        fill_payment_keys o ≠ o)) ∧
    (alist_get s.orders oid = none → get_order s oid = (none, s)) := by
  constructor
  · intro o ho
    refine ⟨by simp [get_order, ho], by simp [get_order, ho], ?_⟩
    intro hpct
    have hfill : (fill_payment_keys o).payment_confirmation_time = some none := by
      unfold fill_payment_keys
      cases hps : o.payment_status <;> simp [hpct]
    refine ⟨hfill, ?_⟩
    intro he
    rw [he, hpct] at hfill
    exact Option.noConfusion hfill
  · intro ho
    simp [get_order, ho]

/-- Witness for C10: reading the freshly created order back-fills its missing
confirmation-time key, changing the stored record. -/
theorem get_order_backfills_witness :
    (get_order one_order_state "ORD_20250101_42").1
      = some (fill_payment_keys order_example) ∧
    fill_payment_keys order_example ≠ order_example :=
  ⟨((get_order_backfills_and_mutates one_order_state "ORD_20250101_42").1
      order_example rfl).1,
   (((get_order_backfills_and_mutates one_order_state "ORD_20250101_42").1
      order_example rfl).2.2 rfl).2⟩

theorem init_svc_file_feedback (s : State) :
    (init_svc_file s).feedback = s.feedback := by
  unfold init_svc_file
  split <;> rfl

theorem init_welcome_file_feedback (s : State) :
    (init_welcome_file s).feedback = s.feedback := by
  unfold init_welcome_file
  split <;> rfl

theorem initialize_storage_feedback (s : State) :
    (initialize_storage s).feedback = s.feedback := by
  unfold initialize_storage
  rw [init_welcome_file_feedback, init_svc_file_feedback]

theorem load_welcome_image_feedback (s : State) :
    (load_welcome_image s).feedback = s.feedback := by
  unfold load_welcome_image
  split <;> rfl

theorem load_services_feedback (fuel : Nat) :
    ∀ s s1 : State, load_services fuel s = Except.ok s1 → s1.feedback = s.feedback := by
  induction fuel with
  | zero =>
    intro s s1 h
    simp [load_services] at h
  | succ n ih =>
    intro s s1 h
    unfold load_services at h
    split at h
    · cases h
      rfl
    · split at h
      · rename_i s2 heq
        cases h
        rw [ih _ _ heq, initialize_storage_feedback]
      · cases h
        rfl
    · split at h
      · rename_i s2 heq
        cases h
        rw [ih _ _ heq, initialize_storage_feedback]
      · cases h
        rfl
    · rw [ih _ _ h, initialize_storage_feedback]

theorem save_services_feedback (s : State) (w : WriteOutcome) :
    ((save_services s w).2).feedback = s.feedback := by
  cases w <;> rfl

theorem get_service_price_feedback (fuel : Nat) (s : State) (name : String)
    (p : Option Rat) (s1 : State)
    (h : get_service_price fuel s name = Except.ok (p, s1)) :
    s1.feedback = s.feedback := by
  unfold get_service_price at h
  split at h
  · cases h
  · rename_i s2 heq
    cases h
    exact load_services_feedback fuel s s1 heq

theorem get_services_feedback (fuel : Nat) (s : State) :
    ((get_services fuel s).2).feedback = s.feedback := by
  unfold get_services
  split
  · rfl
  · rename_i s1 heq
    have h1 : s1.feedback = s.feedback := load_services_feedback fuel s s1 heq
    split
    · split
      · rename_i heq3
        rw [initialize_storage_feedback, h1]
      · rename_i s3 heq3
        rw [load_services_feedback fuel _ s3 heq3, initialize_storage_feedback, h1]
    · exact h1

/-- Appending an entry whose id is the current length preserves positional
ids. -/
theorem ids_positional_append (l : List Feedback) (f : Feedback)
    (hp : ids_positional l) (hf : f.id = l.length) :
    ids_positional (l ++ [f]) := by
  intro i hi
  rw [List.get_eq_getElem]
  simp only [List.length_append, List.length_cons, List.length_nil] at hi
  by_cases hlt : i < l.length
  · rw [List.getElem_append_left hlt]
    have := hp i hlt
    rw [List.get_eq_getElem] at this
    exact this
  · have hieq : i = l.length := by omega
    rw [List.getElem_concat_length l f i hieq]
    rw [hf, hieq]

/-- Updating only the status of the entry at a valid position preserves
positional ids. -/
theorem ids_positional_set_status (l : List Feedback) (n : Nat) (hn : n < l.length)
    (st : String) (hp : ids_positional l) :
    ids_positional (l.set n { l.get ⟨n, hn⟩ with status := st }) := by
  intro i hi
  rw [List.get_eq_getElem]
  simp only [List.length_set] at hi
  by_cases hin : n = i
  · subst hin
    rw [List.getElem_set_self]
    have := hp n hn
    rw [List.get_eq_getElem] at this
    simpa using this
  · rw [List.getElem_set_ne hin]
    have := hp i hi
    rw [List.get_eq_getElem] at this
    exact this

theorem step_preserves_ids_positional (s : State) (op : Op)
    (hp : ids_positional s.feedback) : ids_positional (step s op).feedback := by
  cases op with
  | addService n p w =>
    show ids_positional ((add_service s n p w).2).feedback
    unfold add_service
    split
    · exact hp
    · rw [save_services_feedback]
      exact hp
  | removeService n w =>
    show ids_positional ((remove_service s n w).2).feedback
    unfold remove_service
    split
    · rw [save_services_feedback]
      exact hp
    · exact hp
  | getServices fuel =>
    show ids_positional ((get_services fuel s).2).feedback
    rw [get_services_feedback]
    exact hp
  | getServicePrice fuel n =>
    show ids_positional (match get_service_price fuel s n with
      | Except.ok (_, s1) => s1
      | Except.error _ => s).feedback
    split
    · rename_i p s1 heq
      rw [get_service_price_feedback fuel s n p s1 heq]
      exact hp
    · exact hp
  | setWelcomeImage fid w =>
    show ids_positional ((set_welcome_image s fid w).2).feedback
    unfold set_welcome_image
    split
    · exact hp
    · cases w <;> exact hp
  | getWelcomeImage => exact hp
  | createOrder uid svc ts => exact hp
  | getOrder oid =>
    show ids_positional ((get_order s oid).2).feedback
    unfold get_order
    split
    · exact hp
    · exact hp
  | updateOrderStatus oid st =>
    show ids_positional ((update_order_status s oid st).2).feedback
    unfold update_order_status
    split
    · exact hp
    · exact hp
  | updatePaymentMethod oid m ts =>
    show ids_positional ((update_payment_method s oid m ts).2).feedback
    unfold update_payment_method
    split
    · exact hp
    · exact hp
  | updatePaymentStatus oid st ts =>
    show ids_positional ((update_payment_status s oid st ts).2).feedback
    unfold update_payment_status
    split
    · exact hp
    · exact hp
  | getUserOrders uid => exact hp
  | getUserPendingOrders uid => exact hp
  | addFeedback uid t ts =>
    exact ids_positional_append s.feedback _ hp rfl
  | getPendingFeedback => exact hp
  | updateFeedbackStatus fid st =>
    show ids_positional ((update_feedback_status s fid st).2).feedback
    unfold update_feedback_status
    split
    · next h =>
      exact ids_positional_set_status s.feedback fid.toNat h.2 st hp
    · exact hp
  | setUserSession uid k v => exact hp
  | getUserSession uid k => exact hp
  | clearUserSession uid => exact hp

/-- Every reachable store state has positional feedback ids. -/
theorem reachable_ids_positional (s : State) (h : Reachable s) :
    ids_positional s.feedback := by
  induction h with
  | init f0 w0 fuel s1 hs =>
    unfold storage_init at hs
    have hfb : s1.feedback = [] := by
      rw [load_services_feedback fuel _ s1 hs, load_welcome_image_feedback,
        initialize_storage_feedback]
    intro i hi
    rw [hfb] at hi
    exact absurd hi (by simp)
  | step s1 op hr ih => exact step_preserves_ids_positional s1 op ih

/-- Claim C9: In every reachable store state the feedback list is positional —
each stored entry's id equals its index — and `add_feedback` returns the
current length as the new id (so the n-th add, counting from zero, returns
id n) and preserves the invariant. -/
theorem feedback_ids_sequential (s : State) (h : Reachable s) :
    ids_positional s.feedback ∧
    ∀ (uid : Int) (text : String) (ts : Nat),
      (add_feedback s uid text ts).1 = s.feedback.length ∧
      ids_positional ((add_feedback s uid text ts).2).feedback :=
  ⟨reachable_ids_positional s h, fun uid text ts =>
    ⟨rfl, ids_positional_append s.feedback _ (reachable_ids_positional s h) rfl⟩⟩

/-- Witness for C9 on the state of a freshly constructed store. -/
theorem feedback_ids_sequential_witness :
    ids_positional fresh_init_state.feedback ∧
    (add_feedback fresh_init_state 7 "great" 3).1 = 0 := by
  have h := feedback_ids_sequential fresh_init_state
    (Reachable.init SvcFile.missing WFile.missing 1 fresh_init_state rfl)
  exact ⟨h.1, (h.2 7 "great" 3).1⟩

end Storefront
